import Mathlib

/-!
Verification development for the mmx media-server extension.

The definitions below are shallow embeddings of functions and state machines
from the repository sources:

* `src/internal/staticsources/transcoder/source.go` (ParseTranscoderSource),
* `src/internal/forwarder/manager.go` (SRT and WebRTC forwarders),
* `src/internal/transcoder/manager.go` (transcoding manager and outputs),
* `src/unnamed/part_002` (simulcast aggregation source),
* `src/mmxplayer/mmxplayer.js` and `src/mmxplayer/mixabr/mmxplayer.js`
  (client adaptive layer controllers),
* `src/mmxplayer/pk/reader.js` and `src/mmxplayer/whep/reader.js`
  (client WHEP readers).

Go strings are modelled as `List Char`, Go ints as `Int` with `Int.tdiv`
(Go division truncates toward zero), JavaScript numbers that only ever hold
non-negative integers as `Nat`, maps as functions, and goroutine lifecycles
as explicit event lists folded over a step function.
-/

/-! ### Model of `ParseTranscoderSource` (source.go lines 108-126) -/

/-- Embeds Go `strings.HasPrefix(s, pre)`: `startsWith s pre` is true iff
`pre` is an initial segment of `s`. -/
def startsWith : List Char → List Char → Bool
  | _, [] => true
  | [], _ :: _ => false
  | c :: cs, p :: ps => p == c && startsWith cs ps

/-- Embeds Go `strings.LastIndexByte(s, ch)`: the index of the last
occurrence of `ch` in `s`, or `none` when absent (Go returns -1). -/
def lastIndexByte (ch : Char) : List Char → Option Nat
  | [] => none
  | c :: cs =>
    match lastIndexByte ch cs with
    | some i => some (i + 1)
    | none => if c == ch then some 0 else none

/-- The literal prefix `"transcoder:"` stripped by `ParseTranscoderSource`. -/
def transcoderSourceTag : List Char := ("transcoder:").toList

/-- Embeds `ParseTranscoderSource` (source.go lines 108-126): require the
`"transcoder:"` prefix, strip it, split the remainder at its last colon.
Go's `(inputPath, outputPath, ok)` triple is modelled as an `Option` pair. -/
def ParseTranscoderSource (source : List Char) : Option (List Char × List Char) :=
  if startsWith source transcoderSourceTag then
    let remaining := source.drop transcoderSourceTag.length
    match lastIndexByte ':' remaining with
    | none => none
    | some colonIndex =>
      some (remaining.take colonIndex, remaining.drop (colonIndex + 1))
  else
    none

/-! ### Model of `srtForwarder.srtMaxPayloadSize` (manager.go lines 358-362) -/

/-- Embeds `srtMaxPayloadSize`: `((f.udpMaxPayloadSize - 16) / 188) * 188`
with Go's truncating integer division. -/
def srtMaxPayloadSize (udpMaxPayloadSize : Int) : Int :=
  ((udpMaxPayloadSize - 16).tdiv 188) * 188

/-! ### Lifecycle model of the SRT forwarder (manager.go lines 133-362)

The fields below are the lifecycle fields of `srtForwarder` that the
start/stop and IsRunning contract reads: `stream`, `sconn`, `connected`
and whether the reader is attached to the source stream. Stream and
connection handles are abstracted as `Nat` identifiers. -/

structure SRTForwarderState where
  stream : Option Nat
  sconn : Option Nat
  connected : Bool
  readerAttached : Bool
deriving DecidableEq, Repr

/-- State of a freshly constructed forwarder (`newSRTForwarder`). -/
def srtInitial : SRTForwarderState :=
  { stream := none, sconn := none, connected := false, readerAttached := false }

/-- Embeds `srtForwarder.Start` (manager.go lines 178-191): under the mutex,
if `f.stream != nil` it returns the already-started error and changes
nothing; otherwise it records the stream and spawns the run goroutine. -/
def srtForwarderStart (f : SRTForwarderState) (strm : Nat) :
    SRTForwarderState × Option (List Char) :=
  if f.stream.isSome then
    (f, some (("forwarder already started").toList))
  else
    ({ f with stream := some strm }, none)

/-- Events of the SRT forwarder lifecycle, in the order the code can emit
them: `Start`, a successful `srt.Dial` (lines 305-313), the reader being
added to the stream (line 337), `runInner` returning and running its defers
(lines 315-321 and 338), and `Stop` (lines 194-208, which waits for the run
goroutine before clearing the fields). -/
inductive SRTEvent where
  | start (strm : Nat)
  | dialOk (conn : Nat)
  | attachReader
  | innerExit
  | stop
deriving DecidableEq, Repr

/-- One step of the SRT forwarder lifecycle. Guards encode the control flow
of `run`/`runInner`: a dial only happens while started with no live
connection, the reader is attached only after the dial, `innerExit` runs the
defers (connection closed, reader removed, `connected` cleared), and `Stop`
mutates the fields only after `wg.Wait()` has seen the inner run exit. -/
def srtStep (f : SRTForwarderState) : SRTEvent → SRTForwarderState
  | SRTEvent.start strm => (srtForwarderStart f strm).1
  | SRTEvent.dialOk c =>
    if f.stream.isSome && f.sconn.isNone && !f.readerAttached then
      { f with sconn := some c, connected := true }
    else f
  | SRTEvent.attachReader =>
    if f.sconn.isSome && !f.readerAttached then
      { f with readerAttached := true }
    else f
  | SRTEvent.innerExit =>
    if f.stream.isSome then
      { f with sconn := none, connected := false, readerAttached := false }
    else f
  | SRTEvent.stop =>
    if f.sconn.isNone && !f.readerAttached then
      { f with stream := none, sconn := none }
    else f

/-- The forwarder state after a sequence of lifecycle events. -/
def srtRun (events : List SRTEvent) : SRTForwarderState :=
  events.foldl srtStep srtInitial

/-- Embeds `srtForwarder.IsRunning` (manager.go lines 211-215):
`return f.stream != nil`. -/
def srtIsRunning (f : SRTForwarderState) : Bool :=
  f.stream.isSome

/-! ### Lifecycle model of the WebRTC (WHIP) forwarder (manager.go lines 387-639) -/

structure WebRTCForwarderState where
  stream : Option Nat
  whipClient : Option Nat
  connected : Bool
  readerAttached : Bool
deriving DecidableEq, Repr

/-- State of a freshly constructed forwarder (`newWebRTCForwarder`). -/
def webrtcInitial : WebRTCForwarderState :=
  { stream := none, whipClient := none, connected := false, readerAttached := false }

/-- Embeds `webrtcForwarder.Start` (manager.go lines 442-455): identical
guard to the SRT variant. -/
def webrtcForwarderStart (f : WebRTCForwarderState) (strm : Nat) :
    WebRTCForwarderState × Option (List Char) :=
  if f.stream.isSome then
    (f, some (("forwarder already started").toList))
  else
    ({ f with stream := some strm }, none)

/-- Events of the WebRTC forwarder lifecycle. `runInner` adds the reader to
the stream only after the WHIP client initialised (line 582), then publishes
the client and sets `connected` (lines 585-588); on exit the deferred block
registered later runs first (client cleared, lines 590-596), then the reader
is removed (line 583); `Stop` waits for the run goroutine first. -/
inductive WebRTCEvent where
  | start (strm : Nat)
  | attachReader
  | clientUp (c : Nat)
  | clientDown
  | detachReader
  | stop
deriving DecidableEq, Repr

/-- One step of the WebRTC forwarder lifecycle, with guards encoding the
statement order of `runInner` and the defer (LIFO) order of its exits. -/
def webrtcStep (f : WebRTCForwarderState) : WebRTCEvent → WebRTCForwarderState
  | WebRTCEvent.start strm => (webrtcForwarderStart f strm).1
  | WebRTCEvent.attachReader =>
    if f.stream.isSome && !f.readerAttached && f.whipClient.isNone then
      { f with readerAttached := true }
    else f
  | WebRTCEvent.clientUp c =>
    if f.readerAttached && f.whipClient.isNone then
      { f with whipClient := some c, connected := true }
    else f
  | WebRTCEvent.clientDown =>
    if f.whipClient.isSome then
      { f with whipClient := none, connected := false }
    else f
  | WebRTCEvent.detachReader =>
    if f.readerAttached && f.whipClient.isNone then
      { f with readerAttached := false }
    else f
  | WebRTCEvent.stop =>
    if f.whipClient.isNone && !f.readerAttached then
      { f with stream := none, whipClient := none }
    else f

/-- The forwarder state after a sequence of lifecycle events. -/
def webrtcRun (events : List WebRTCEvent) : WebRTCForwarderState :=
  events.foldl webrtcStep webrtcInitial

/-- Embeds `webrtcForwarder.IsRunning` (manager.go lines 475-479):
`return f.stream != nil && f.whipClient != nil`. -/
def webrtcIsRunning (f : WebRTCForwarderState) : Bool :=
  f.stream.isSome && f.whipClient.isSome

/-! ### Model of the simulcast aggregation source data path (part_002)

RTP packets carry a header (copied by value when cloning) and a payload
(copied into a fresh buffer). Units are the envelopes delivered by the
stream bus. -/

structure RTPHeader where
  ssrc : Nat
  sequenceNumber : Nat
  timestamp : Nat
deriving DecidableEq, Repr

structure RTPPacket where
  header : RTPHeader
  payload : List Nat
deriving DecidableEq, Repr

structure SimUnit where
  rtpPackets : List RTPPacket
  ntp : Nat
  nilPayload : Bool
deriving DecidableEq, Repr

/-- Embeds `randUint32` (part_002 lines 143-150): four random bytes combined
with shifts and bitwise or. -/
def randUint32 (b0 b1 b2 b3 : Nat) : Nat :=
  b0 <<< 24 ||| b1 <<< 16 ||| b2 <<< 8 ||| b3

/-- Embeds the `OnData` callback of `Source.forwardVideo` (part_002 lines
440-490) acting on one unit: skip units without payload; clone each packet
(header by value, payload into a fresh buffer), overwrite the clone's SSRC
with the layer's allocated SSRC, and write it to the output stream when the
output description has a video media with an H.264 format
(`outputHasVideoMedia`). The returned list is the sequence of packets
written to the output stream. -/
def forwardVideoUnit (layerSSRC : Nat) (outputHasVideoMedia : Bool)
    (u : SimUnit) : List RTPPacket :=
  if u.nilPayload then []
  else
    u.rtpPackets.filterMap (fun originalPkt =>
      let pkt : RTPPacket :=
        { header := { originalPkt.header with ssrc := layerSSRC },
          payload := originalPkt.payload }
      if outputHasVideoMedia then some pkt else none)

/-- Embeds the `OnData` callback of `Source.forwardAudio` (part_002 lines
531-578) acting on one unit: clone each packet and write the clone
unchanged; no SSRC rewrite appears in this path. -/
def forwardAudioUnit (outputHasAudioMedia : Bool) (u : SimUnit) : List RTPPacket :=
  if u.nilPayload then []
  else
    u.rtpPackets.filterMap (fun originalPkt =>
      let pkt : RTPPacket :=
        { header := originalPkt.header, payload := originalPkt.payload }
      if outputHasAudioMedia then some pkt else none)

/-! ### Model of the transcoding output description (transcoder/manager.go) -/

inductive TMediaType where
  | video
  | audio
deriving DecidableEq, Repr

inductive TFormat where
  | h264 (payloadTyp : Nat) (sps pps : List Nat) (packetizationMode : Nat)
  | opus (payloadTyp : Nat) (channelCount : Nat)
deriving DecidableEq, Repr

structure TMedia where
  type : TMediaType
  formats : List TFormat
deriving DecidableEq, Repr

/-- The canned H.264 SPS of the tentative description (manager.go line 432). -/
def cannedSPS : List Nat :=
  [0x67, 0x42, 0xc0, 0x28, 0xd9, 0x00, 0x78, 0x02, 0x27, 0xe5, 0x84, 0x00,
   0x00, 0x03, 0x00, 0x04, 0x00, 0x00, 0x03, 0x00, 0xf0, 0x3c, 0x60, 0xc9,
   0x20]

/-- The canned H.264 PPS of the tentative description (manager.go line 433). -/
def cannedPPS : List Nat := [0x08, 0x06, 0x07, 0x08]

/-- Embeds `createStreamDescription` (transcoder/manager.go lines 423-453):
a video-typed config yields an H.264 video media with the canned parameter
sets, and every config yields the Opus stereo audio media. -/
def createStreamDescription (configType : String) : List TMedia :=
  (if configType == "video" then
    [{ type := TMediaType.video,
       formats := [TFormat.h264 96 cannedSPS cannedPPS 1] }]
  else []) ++
  [{ type := TMediaType.audio, formats := [TFormat.opus 97 2] }]

/-- Errors observable from the MPEG-TS round trip in `outputProcessor`:
end of file or any other error. -/
inductive TSErr where
  | eof
  | other
deriving DecidableEq, Repr

/-- Embeds the test `err != nil && err != io.EOF` applied to the result of
`mpegts.ToStream` (manager.go line 321). -/
def toStreamErrIsFatal : Option TSErr → Bool
  | some TSErr.other => true
  | _ => false

/-- Embeds the description decision of `Output.outputProcessor` (manager.go
lines 296-330): when `EnhancedReader.Initialize` fails the routine returns
early and the stream keeps its current description; otherwise the
description is replaced by the medias from `mpegts.ToStream` exactly when
that call returned no fatal error and at least one media. -/
def outputProcessorDesc (initErr : Option TSErr) (toStreamErr : Option TSErr)
    (medias : List TMedia) (tentative : List TMedia) : List TMedia :=
  match initErr with
  | some _ => tentative
  | none =>
    if toStreamErrIsFatal toStreamErr then tentative
    else if medias.length > 0 then medias
    else tentative

/-! ### Model of the transcoder manager start (transcoder/manager.go lines 45-75) -/

/-- One configured output together with the environment's verdict on the two
fallible calls made for it: `newOutputOk` is whether `NewOutput` (stream
initialisation) succeeds, `startOk` whether `Output.Start` (pipes and
process spawn) succeeds. -/
structure TranscoderOutputConf where
  path : String
  newOutputOk : Bool
  startOk : Bool
deriving DecidableEq, Repr

structure TranscoderConfig where
  enable : Bool
  outputs : List TranscoderOutputConf
deriving DecidableEq, Repr

/-- The manager fields touched by `Start`: the `active` flag and the keys of
the `outputs` map in insertion order. -/
structure TranscoderManagerState where
  active : Bool
  outputs : List String
deriving DecidableEq, Repr

/-- Embeds the output loop of `Manager.Start` (manager.go lines 60-71): each
output is created then started; the first failure returns immediately with
the outputs registered so far. -/
def transcoderStartOutputs (registered : List String) :
    List TranscoderOutputConf → List String × Option String
  | [] => (registered, none)
  | o :: rest =>
    if !o.newOutputOk then
      (registered, some ("failed to create output " ++ o.path))
    else if !o.startOk then
      (registered, some ("failed to start output " ++ o.path))
    else
      transcoderStartOutputs (registered ++ [o.path]) rest

/-- Embeds `Manager.Start` (manager.go lines 45-75): reject when already
active; do nothing when transcoding is disabled; otherwise set `active`
before the output loop and run the loop. -/
def transcoderManagerStart (m : TranscoderManagerState) (cfg : TranscoderConfig) :
    TranscoderManagerState × Option String :=
  if m.active then
    (m, some ("transcoder already active"))
  else if !cfg.enable then
    (m, none)
  else
    let m1 : TranscoderManagerState := { m with active := true }
    let res := transcoderStartOutputs m1.outputs cfg.outputs
    ({ m1 with outputs := res.1 }, res.2)

/-! ### Model of the client adaptive controllers (mmxplayer.js variants)

`src/mmxplayer/mmxplayer.js` is the simulcast-level controller ("variant A"
below); `src/mmxplayer/mixabr/mmxplayer.js` is the multi-stream controller
("variant B"). Reader objects are abstracted as `Nat` identifiers; the
observable reader operations of a switch are recorded as an action list in
program order. -/

inductive ReaderAction where
  | closeReader (r : Nat)
  | createReader (r : Nat)
deriving DecidableEq, Repr

/-- Controller fields of the simulcast player read and written by
`loadLevel`/`onTrack` (mmxplayer.js lines 42-138). -/
structure PlayerAState where
  currentReader : Option Nat
  currentLevelIdx : Nat
  isSwitching : Bool
  levelsCount : Nat
deriving DecidableEq, Repr

/-- Embeds `MMXPlayer.loadLevel` of the simulcast player (mmxplayer.js lines
77-138) up to the construction of the new reader: range guard, re-entry
guard, set `isSwitching`, close and null the current reader if present, then
construct the new reader (`newReader` is the id the constructor yields).
The action list records the reader operations in program order; the
`onTrack`/`onError` callbacks of the new reader fire later and are modelled
separately. -/
def loadLevelA (s : PlayerAState) (index newReader : Nat) :
    PlayerAState × List ReaderAction :=
  if s.levelsCount ≤ index then (s, [])
  else if s.isSwitching && s.currentLevelIdx == index then (s, [])
  else
    let s1 : PlayerAState := { s with isSwitching := true }
    match s1.currentReader with
    | some old =>
      ({ s1 with currentReader := none },
       [ReaderAction.closeReader old, ReaderAction.createReader newReader])
    | none => (s1, [ReaderAction.createReader newReader])

/-- Embeds the `onTrack` handler of the simulcast player's `loadLevel`
(mmxplayer.js lines 109-136): adopt the new reader and level, reset the
switching flag. No reader is closed here. -/
def onTrackA (s : PlayerAState) (index newReader : Nat) :
    PlayerAState × List ReaderAction :=
  ({ s with currentReader := some newReader, currentLevelIdx := index,
            isSwitching := false }, [])

/-- Controller fields of the mixabr player read and written by
`loadLevel`/`onTrack` (mixabr/mmxplayer.js lines 73-251). -/
structure PlayerBState where
  currentReader : Option Nat
  currentLevelIdx : Nat
  isSwitching : Bool
  activeLevelUsingFallback : Bool
  levelsCount : Nat
deriving DecidableEq, Repr

/-- Embeds `MMXPlayer.loadLevel` of the mixabr player (mixabr/mmxplayer.js
lines 135-251) up to the construction of the new reader: range guard,
re-entry guard (bypassed for fallback retries), set `isSwitching`, construct
the new reader. The current reader is left untouched here. -/
def loadLevelB (s : PlayerBState) (index newReader : Nat) :
    PlayerBState × List ReaderAction :=
  if s.levelsCount ≤ index then (s, [])
  else if s.isSwitching && s.currentLevelIdx == index &&
      !s.activeLevelUsingFallback then (s, [])
  else
    ({ s with isSwitching := true }, [ReaderAction.createReader newReader])

/-- Embeds the `onTrack` handler of the mixabr player's `loadLevel`
(mixabr/mmxplayer.js lines 211-249): ignore repeated track events
(`trackHandled`), close the previous reader when it exists and differs from
the new one, then adopt the new reader and level. -/
def onTrackB (s : PlayerBState) (index newReader : Nat) (trackHandled : Bool) :
    PlayerBState × List ReaderAction :=
  if trackHandled then (s, [])
  else
    let closes :=
      match s.currentReader with
      | some old =>
        if old ≠ newReader then [ReaderAction.closeReader old] else []
      | none => []
    ({ s with currentReader := some newReader, currentLevelIdx := index,
              isSwitching := false }, closes)

/-! ### Model of the penalty box (ABR_CONFIG and penalize/manual switch) -/

/-- `ABR_CONFIG.BASE_PENALTY_TIME` of the mixabr player
(mixabr/mmxplayer.js line 17). -/
def mixBasePenaltyTime : Nat := 60000

/-- `ABR_CONFIG.MAX_PENALTY_TIME` of the mixabr player
(mixabr/mmxplayer.js line 18). -/
def mixMaxPenaltyTime : Nat := 300000

/-- `ABR_CONFIG.BASE_PENALTY_TIME` of the simulcast player
(mmxplayer.js line 17). -/
def simBasePenaltyTime : Nat := 30000

/-- `ABR_CONFIG.MAX_PENALTY_TIME` of the simulcast player
(mmxplayer.js line 18). -/
def simMaxPenaltyTime : Nat := 120000

/-- The penalty-tracking fields shared by both controllers:
`failureCounts` and `penaltyBox` (level index to banned-until time). -/
structure PenaltyState where
  failureCounts : Nat → Nat
  penaltyBox : Nat → Option Nat

/-- Embeds `MMXPlayer.penalizeLevel` of the mixabr player
(mixabr/mmxplayer.js lines 253-262): increment the failure count, compute
`BASE_PENALTY_TIME * 2^(count-1)` capped at `MAX_PENALTY_TIME`, and ban the
level until `now + penaltyTime`. -/
def penalizeLevel (s : PenaltyState) (index now : Nat) : PenaltyState :=
  let count := s.failureCounts index + 1
  let raw := mixBasePenaltyTime * 2 ^ (count - 1)
  let penaltyTime := if mixMaxPenaltyTime < raw then mixMaxPenaltyTime else raw
  { failureCounts := fun i => if i = index then count else s.failureCounts i,
    penaltyBox := fun i =>
      if i = index then some (now + penaltyTime) else s.penaltyBox i }

/-- Embeds the penalty-clearing effect of `MMXPlayer.manualSwitch` of the
mixabr player (mixabr/mmxplayer.js lines 286-294): `failureCounts[idx] = 0`
and `delete penaltyBox[idx]` before loading the level. -/
def manualSwitchClear (s : PenaltyState) (idx : Nat) : PenaltyState :=
  { failureCounts := fun i => if i = idx then 0 else s.failureCounts i,
    penaltyBox := fun i => if i = idx then none else s.penaltyBox i }

/-- The controller fields written by the `onError` handler of the simulcast
player's `loadLevel` (mmxplayer.js lines 99-108): it only resets
`isSwitching` (and schedules a retry at a lower level); the penalty fields
declared in the constructor are never written in that file. -/
structure PlayerAErrorState where
  isSwitching : Bool
  failureCounts : Nat → Nat
  penaltyBox : Nat → Option Nat

/-- Embeds the `onError` handler of the simulcast player (mmxplayer.js
lines 99-108), restricted to its state writes; the `setTimeout` retry is
scheduling only. -/
def onErrorA (s : PlayerAErrorState) : PlayerAErrorState :=
  { s with isSwitching := false }

/-! ### Model of the client WHEP readers (pk/reader.js and whep/reader.js) -/

inductive ReaderLifecycle where
  | gettingCodecs
  | running
  | restarting
  | failed
  | closed
deriving DecidableEq, Repr

/-- The reader fields involved in trickle-ICE candidate handling:
`state`, `sessionUrl`, `queuedCandidates`, plus a log of the candidate
PATCH requests issued (each entry is the candidate list of one PATCH). -/
structure WHEPReaderState where
  state : ReaderLifecycle
  sessionUrl : Option Nat
  queuedCandidates : List Nat
  patchBodies : List (List Nat)
deriving DecidableEq, Repr

/-- Embeds `#sendLocalCandidates` of pk/reader.js (lines 221-231): one PATCH
request carrying the given candidates. -/
def pkSendLocalCandidates (s : WHEPReaderState) (cands : List Nat) :
    WHEPReaderState :=
  { s with patchBodies := s.patchBodies ++ [cands] }

/-- Embeds `#onLocalCandidate` of pk/reader.js (lines 208-219): while
running, queue the candidate when no session URL is known yet, otherwise
PATCH it on its own. -/
def pkOnLocalCandidate (s : WHEPReaderState) (c : Nat) : WHEPReaderState :=
  if s.state ≠ ReaderLifecycle.running then s
  else if s.sessionUrl = none then
    { s with queuedCandidates := s.queuedCandidates ++ [c] }
  else
    pkSendLocalCandidates s [c]

/-- Embeds the 201 branch of `#sendOffer` of pk/reader.js (lines 180-201):
record the session URL, then flush the queued candidates with a single
PATCH and clear the queue. -/
def pkSendOffer201 (s : WHEPReaderState) (url : Nat) : WHEPReaderState :=
  if s.state ≠ ReaderLifecycle.running then s
  else
    let s1 : WHEPReaderState := { s with sessionUrl := some url }
    if 0 < s1.queuedCandidates.length then
      let s2 := pkSendLocalCandidates s1 s1.queuedCandidates
      { s2 with queuedCandidates := [] }
    else s1

/-- Embeds the rejection handler of the candidate PATCH in pk/reader.js
(lines 226-230): a console warning only; no state change. -/
def pkPatchFailure (s : WHEPReaderState) : WHEPReaderState := s

/-- Embeds `#handleError` of whep/reader.js (lines 165-192), restricted to
the modelled fields: while running it drops the session URL, clears the
queue and enters `restarting`; in `getting_codecs` it fails. -/
def whepHandleError (s : WHEPReaderState) : WHEPReaderState :=
  if s.state = ReaderLifecycle.running then
    { s with sessionUrl := none, queuedCandidates := [],
             state := ReaderLifecycle.restarting }
  else if s.state = ReaderLifecycle.gettingCodecs then
    { s with state := ReaderLifecycle.failed }
  else s

/-- Embeds `#onLocalCandidate` of whep/reader.js (lines 285-291): the same
queue-or-send logic as the pk variant. -/
def whepOnLocalCandidate (s : WHEPReaderState) (c : Nat) : WHEPReaderState :=
  if s.state ≠ ReaderLifecycle.running then s
  else if s.sessionUrl = none then
    { s with queuedCandidates := s.queuedCandidates ++ [c] }
  else
    { s with patchBodies := s.patchBodies ++ [[c]] }

/-- Embeds the 201 branch of `#sendOffer` of whep/reader.js (lines 267-278):
record the session URL; no flush of the queued candidates appears there or
in `#setAnswer`. -/
def whepSendOffer201 (s : WHEPReaderState) (url : Nat) : WHEPReaderState :=
  if s.state ≠ ReaderLifecycle.running then s
  else { s with sessionUrl := some url }

/-- Embeds the rejection handler of the candidate PATCH in whep/reader.js
(line 298): `#handleError` is invoked. -/
def whepPatchFailure (s : WHEPReaderState) : WHEPReaderState :=
  whepHandleError s

/-! ### Invariants and fixed states used by the theorems below -/

/-- Invariant actually maintained by the SRT forwarder lifecycle: while
`connected` is set, the SRT connection is live and the forwarder counts as
running. -/
def srtConnInv (f : SRTForwarderState) : Prop :=
  f.connected = true → f.sconn.isSome = true ∧ f.stream.isSome = true

/-- Invariant actually maintained by the WebRTC forwarder lifecycle: the
WHIP client is only ever published while the reader is attached. -/
def whipClientInv (f : WebRTCForwarderState) : Prop :=
  f.whipClient.isSome = true → f.readerAttached = true

/-- A fresh controller's penalty state (constructor lines 99-100 of
mixabr/mmxplayer.js: empty maps). -/
def penaltyZero : PenaltyState :=
  { failureCounts := fun _ => 0, penaltyBox := fun _ => none }

/-! ## Theorems -/

/-! ### C9: ParseTranscoderSource splits at the last colon -/

theorem startsWith_append (pre rest : List Char) :
    startsWith (pre ++ rest) pre = true := by
  induction pre with
  | nil => cases rest <;> simp [startsWith]
  | cons c cs ih => simp [startsWith, ih]

theorem startsWith_iff (s pre : List Char) :
    startsWith s pre = true ↔ pre <+: s := by
  induction s generalizing pre with
  | nil =>
    cases pre with
    | nil => simp [startsWith]
    | cons p ps => simp [startsWith]
  | cons c cs ih =>
    cases pre with
    | nil => simp [startsWith]
    | cons p ps =>
      rw [List.cons_prefix_cons]
      simp [startsWith, Bool.and_eq_true, beq_iff_eq, ih]

theorem lastIndexByte_eq_none (ch : Char) (l : List Char) :
    lastIndexByte ch l = none ↔ ch ∉ l := by
  induction l with
  | nil => simp [lastIndexByte]
  | cons c cs ih =>
    simp only [lastIndexByte, List.mem_cons]
    cases h : lastIndexByte ch cs with
    | some i =>
      have hmem : ch ∈ cs := by
        by_contra hn
        have hnone := ih.mpr hn
        rw [h] at hnone
        exact Option.noConfusion hnone
      simp [hmem]
    | none =>
      have hnot : ch ∉ cs := ih.mp h
      by_cases hc : (c == ch) = true
      · have hce : ch = c := (beq_iff_eq.mp hc).symm
        simp [hc, hce]
      · have hce : ¬ ch = c := fun he => hc (beq_iff_eq.mpr he.symm)
        simp [hc, hce, hnot]

theorem lastIndexByte_split (pre out : List Char) (h : ':' ∉ out) :
    lastIndexByte ':' (pre ++ ':' :: out) = some pre.length := by
  induction pre with
  | nil =>
    simp only [List.nil_append, lastIndexByte]
    rw [(lastIndexByte_eq_none ':' out).mpr h]
    simp
  | cons c cs ih =>
    simp only [List.cons_append, lastIndexByte, List.append_eq, ih,
      List.length_cons]

/-- C9: `ParseTranscoderSource` splits at the last colon: for every input
path and every output path free of colons,
`ParseTranscoderSource ("transcoder:" ++ inputPath ++ ":" ++ outputPath)`
succeeds with exactly that pair, and it fails (Go `ok = false`) exactly for
strings that do not start with `"transcoder:"` or contain no colon after
that prefix. -/
theorem ParseTranscoderSource_spec :
    (∀ inputPath outputPath : List Char, ':' ∉ outputPath →
      ParseTranscoderSource
          (transcoderSourceTag ++ inputPath ++ ':' :: outputPath) =
        some (inputPath, outputPath)) ∧
    (∀ source : List Char,
      ParseTranscoderSource source = none ↔
        (¬ transcoderSourceTag <+: source ∨
          ':' ∉ source.drop transcoderSourceTag.length)) := by
  constructor
  · intro inputPath outputPath h
    have hpre :
        startsWith (transcoderSourceTag ++ (inputPath ++ ':' :: outputPath))
          transcoderSourceTag = true :=
      startsWith_append _ _
    rw [List.append_assoc, ParseTranscoderSource]
    simp only [hpre, if_true, List.drop_left]
    rw [lastIndexByte_split inputPath outputPath h]
    have htake : (inputPath ++ ':' :: outputPath).take inputPath.length =
        inputPath := List.take_left _ _
    have hdrop : (inputPath ++ ':' :: outputPath).drop (inputPath.length + 1) =
        outputPath := by
      rw [List.append_cons]
      have hlen : inputPath.length + 1 = (inputPath ++ [':']).length := by
        simp
      rw [hlen, List.drop_left]
    show some ((inputPath ++ ':' :: outputPath).take inputPath.length,
        (inputPath ++ ':' :: outputPath).drop (inputPath.length + 1)) =
      some (inputPath, outputPath)
    rw [htake, hdrop]
  · intro source
    by_cases hs : startsWith source transcoderSourceTag = true
    · rw [ParseTranscoderSource]
      simp only [hs, if_true]
      have hpre : transcoderSourceTag <+: source := (startsWith_iff _ _).mp hs
      cases h : lastIndexByte ':' (source.drop transcoderSourceTag.length) with
      | none =>
        have : ':' ∉ source.drop transcoderSourceTag.length :=
          (lastIndexByte_eq_none _ _).mp h
        simp [hpre, this]
      | some i =>
        have : ':' ∈ source.drop transcoderSourceTag.length := by
          by_contra hn
          rw [← lastIndexByte_eq_none ':'] at hn
          rw [h] at hn
          cases hn
        simp [hpre, this]
    · rw [ParseTranscoderSource]
      simp only [hs]
      have : ¬ transcoderSourceTag <+: source := by
        intro hn
        exact hs ((startsWith_iff _ _).mpr hn)
      simp [this]

/-- C9 witness: a concrete round trip through `ParseTranscoderSource`. -/
theorem ParseTranscoderSource_spec_witness :
    ParseTranscoderSource
        (transcoderSourceTag ++ ("live/in").toList ++ ':' :: ("live/out").toList) =
      some (("live/in").toList, ("live/out").toList) :=
  ParseTranscoderSource_spec.1 (("live/in").toList) (("live/out").toList)
    (by decide)

/-! ### C6: SRT maximum MPEG-TS payload size -/

/-- C6: for every configured `udpMaxPayloadSize` of at least the 16-byte SRT
header, `srtMaxPayloadSize` equals `⌊(udpMaxPayloadSize − 16) / 188⌋ × 188`,
and for every non-negative `udpMaxPayloadSize` below `16 + 188` the computed
maximum payload is 0. -/
theorem srtMaxPayloadSize_spec :
    (∀ u : Int, 16 ≤ u →
      srtMaxPayloadSize u = ((u - 16).fdiv 188) * 188) ∧
    (∀ u : Int, 0 ≤ u → u < 16 + 188 → srtMaxPayloadSize u = 0) := by
  constructor
  · intro u hu
    rw [srtMaxPayloadSize, Int.fdiv_eq_tdiv (by omega) (by omega)]
  · intro u h0 h1
    rw [srtMaxPayloadSize]
    rcases le_or_lt 16 u with h | h
    · rw [Int.tdiv_eq_zero_of_lt (by omega) (by omega), zero_mul]
    · have e : u - 16 = -(16 - u) := by ring
      rw [e, Int.neg_tdiv, Int.tdiv_eq_zero_of_lt (by omega) (by omega),
        neg_zero, zero_mul]

/-- C6 witness: the default payload size 1316 and a sub-minimal size 100. -/
theorem srtMaxPayloadSize_spec_witness :
    srtMaxPayloadSize 1316 = ((1316 - 16 : Int).fdiv 188) * 188 ∧
      srtMaxPayloadSize 100 = 0 :=
  ⟨srtMaxPayloadSize_spec.1 1316 (by decide),
   srtMaxPayloadSize_spec.2 100 (by decide) (by decide)⟩

/-! ### C7: Start is one-shot for both forwarder kinds -/

/-- C7: for both the SRT and the WHIP forwarder, calling `Start` while the
forwarder is already started returns the already-started error to the caller
and leaves the forwarder state exactly unchanged. -/
theorem forwarder_start_one_shot :
    (∀ (f : SRTForwarderState) (strm : Nat), f.stream.isSome = true →
      srtForwarderStart f strm =
        (f, some (("forwarder already started").toList))) ∧
    (∀ (f : WebRTCForwarderState) (strm : Nat), f.stream.isSome = true →
      webrtcForwarderStart f strm =
        (f, some (("forwarder already started").toList))) := by
  constructor
  · intro f strm h
    simp [srtForwarderStart, h]
  · intro f strm h
    simp [webrtcForwarderStart, h]

/-- C7 witness: a second `Start` on concrete started forwarders. -/
theorem forwarder_start_one_shot_witness :
    srtForwarderStart
        { stream := some 0, sconn := none, connected := false,
          readerAttached := false } 1 =
      ({ stream := some 0, sconn := none, connected := false,
         readerAttached := false },
        some (("forwarder already started").toList)) ∧
    webrtcForwarderStart
        { stream := some 0, whipClient := none, connected := false,
          readerAttached := false } 1 =
      ({ stream := some 0, whipClient := none, connected := false,
         readerAttached := false },
        some (("forwarder already started").toList)) :=
  ⟨forwarder_start_one_shot.1 _ 1 rfl, forwarder_start_one_shot.2 _ 1 rfl⟩

/-! ### C3: IsRunning versus connection and reader attachment -/

theorem srtStep_preserves_connInv (f : SRTForwarderState) (e : SRTEvent)
    (h : srtConnInv f) : srtConnInv (srtStep f e) := by
  cases e <;>
    simp only [srtStep, srtForwarderStart, srtConnInv] at h ⊢ <;>
    split_ifs <;> simp_all

theorem webrtcStep_preserves_clientInv (f : WebRTCForwarderState)
    (e : WebRTCEvent) (h : whipClientInv f) :
    whipClientInv (webrtcStep f e) := by
  cases e <;>
    simp only [webrtcStep, webrtcForwarderStart, whipClientInv] at h ⊢ <;>
    split_ifs <;> simp_all

theorem foldl_preserves_srtConnInv (l : List SRTEvent)
    (f : SRTForwarderState) (h : srtConnInv f) :
    srtConnInv (l.foldl srtStep f) := by
  induction l generalizing f with
  | nil => exact h
  | cons e es ih => exact ih _ (srtStep_preserves_connInv f e h)

theorem foldl_preserves_clientInv (l : List WebRTCEvent)
    (f : WebRTCForwarderState) (h : whipClientInv f) :
    whipClientInv (l.foldl webrtcStep f) := by
  induction l generalizing f with
  | nil => exact h
  | cons e es ih => exact ih _ (webrtcStep_preserves_clientInv f e h)

/-- C3 counterexample: immediately after `Start` returns and before the dial
completes, the SRT forwarder reports `IsRunning` while its connection is nil
and no reader is attached, refuting the claimed invariant in a reachable
state. -/
theorem srt_isRunning_counterexample :
    srtIsRunning (srtRun [SRTEvent.start 0]) = true ∧
      (srtRun [SRTEvent.start 0]).sconn = none ∧
      (srtRun [SRTEvent.start 0]).readerAttached = false := by
  decide

/-- C3 amended: for the WHIP forwarder the invariant holds in every
reachable state (`IsRunning` implies a live WHIP client and an attached
reader); for the SRT forwarder `IsRunning` only reflects that `Start` has
been called and `Stop` has not, and a non-nil connection is guaranteed only
while `connected` is set, between a successful dial and the inner run's
exit. -/
theorem forwarder_isRunning_amended :
    (∀ es : List WebRTCEvent, webrtcIsRunning (webrtcRun es) = true →
      (webrtcRun es).whipClient.isSome = true ∧
        (webrtcRun es).readerAttached = true) ∧
    (∀ es : List SRTEvent, (srtRun es).connected = true →
      (srtRun es).sconn.isSome = true ∧ srtIsRunning (srtRun es) = true) := by
  constructor
  · intro es h
    have inv : whipClientInv (webrtcRun es) :=
      foldl_preserves_clientInv es webrtcInitial
        (by simp [whipClientInv, webrtcInitial])
    have hw : (webrtcRun es).whipClient.isSome = true := by
      rw [webrtcIsRunning, Bool.and_eq_true] at h
      exact h.2
    exact ⟨hw, inv hw⟩
  · intro es h
    have inv : srtConnInv (srtRun es) :=
      foldl_preserves_srtConnInv es srtInitial
        (by simp [srtConnInv, srtInitial])
    have hc := inv h
    exact ⟨hc.1, by rw [srtIsRunning]; exact hc.2⟩

/-- C3 witness: concrete event sequences reaching a connected WHIP forwarder
and a dialled SRT forwarder. -/
theorem forwarder_isRunning_amended_witness :
    ((webrtcRun [WebRTCEvent.start 0, WebRTCEvent.attachReader,
        WebRTCEvent.clientUp 0]).whipClient.isSome = true ∧
      (webrtcRun [WebRTCEvent.start 0, WebRTCEvent.attachReader,
        WebRTCEvent.clientUp 0]).readerAttached = true) ∧
    ((srtRun [SRTEvent.start 0, SRTEvent.dialOk 0]).sconn.isSome = true ∧
      srtIsRunning (srtRun [SRTEvent.start 0, SRTEvent.dialOk 0]) = true) :=
  ⟨forwarder_isRunning_amended.1 _ (by decide),
   forwarder_isRunning_amended.2 _ (by decide)⟩

/-! ### C1: when the prior reader is closed during a level switch -/

/-- C1 counterexample: in the simulcast player, `loadLevel` on a state that
holds a reader closes that reader at the start of the switch, before the new
reader is even constructed — hence before any `ontrack` of the new reader
and outside the `close()` path. -/
theorem player_switch_counterexample :
    (loadLevelA
        { currentReader := some 1, currentLevelIdx := 0, isSwitching := false,
          levelsCount := 4 } 1 2).2 =
      [ReaderAction.closeReader 1, ReaderAction.createReader 2] ∧
    ReaderAction.closeReader 1 ∈
      (loadLevelA
        { currentReader := some 1, currentLevelIdx := 0, isSwitching := false,
          levelsCount := 4 } 1 2).2 := by
  decide

/-- C1 amended: in the mixabr player the claim holds — `loadLevel` closes no
reader, and the prior reader is closed exactly in the new reader's first
`onTrack` (when present and distinct); in the simulcast player `loadLevel`
itself closes the prior reader at the start of the switch, before the new
reader is created. -/
theorem player_switch_amended :
    (∀ (s : PlayerBState) (index newReader old : Nat),
      ReaderAction.closeReader old ∉ (loadLevelB s index newReader).2) ∧
    (∀ (s : PlayerBState) (index newReader old : Nat),
      s.currentReader = some old → old ≠ newReader →
      (onTrackB s index newReader false).2 = [ReaderAction.closeReader old] ∧
        (onTrackB s index newReader false).1.currentReader = some newReader) ∧
    (∀ (s : PlayerAState) (index newReader old : Nat),
      s.currentReader = some old → index < s.levelsCount →
      s.isSwitching = false →
      (loadLevelA s index newReader).2 =
        [ReaderAction.closeReader old, ReaderAction.createReader newReader]) ∧
    (∀ (s : PlayerAState) (index newReader : Nat),
      (onTrackA s index newReader).2 = []) := by
  refine ⟨?_, ?_, ?_, ?_⟩
  · intro s index newReader old
    rw [loadLevelB]
    split_ifs <;> simp
  · intro s index newReader old hr hne
    rw [onTrackB]
    simp [hr, hne]
  · intro s index newReader old hr hlt hsw
    rw [loadLevelA]
    rw [if_neg (by omega)]
    rw [if_neg (by simp [hsw])]
    simp [hr]
  · intro s index newReader
    rw [onTrackA]

/-- C1 witness: the mixabr `onTrack` closing a concrete prior reader, and
the simulcast `loadLevel` closing it up front. -/
theorem player_switch_amended_witness :
    ((onTrackB
        { currentReader := some 1, currentLevelIdx := 0, isSwitching := true,
          activeLevelUsingFallback := false, levelsCount := 4 } 1 2 false).2 =
      [ReaderAction.closeReader 1] ∧
      (onTrackB
        { currentReader := some 1, currentLevelIdx := 0, isSwitching := true,
          activeLevelUsingFallback := false, levelsCount := 4 } 1 2
          false).1.currentReader = some 2) ∧
    (loadLevelA
        { currentReader := some 3, currentLevelIdx := 0, isSwitching := false,
          levelsCount := 4 } 2 5).2 =
      [ReaderAction.closeReader 3, ReaderAction.createReader 5] :=
  ⟨player_switch_amended.2.1 _ 1 2 1 rfl (by decide),
   player_switch_amended.2.2.1 _ 2 5 3 rfl (by decide) rfl⟩

/-! ### C4: penalty box constants and clearing -/

/-- C4 counterexample: the first failure at a level is banned until
`now + 60000` ms by `penalizeLevel`, not until
`now + min(30000 * 2^0, 120000) = now + 31000` as the claim's constants
(BASE 30 s, MAX 120 s) predict. -/
theorem abr_penalty_counterexample :
    (penalizeLevel penaltyZero 1 1000).failureCounts 1 = 1 ∧
    (penalizeLevel penaltyZero 1 1000).penaltyBox 1 = some 61000 ∧
    (penalizeLevel penaltyZero 1 1000).penaltyBox 1 ≠
      some (1000 + min (simBasePenaltyTime * 2 ^ (1 - 1)) simMaxPenaltyTime) := by
  refine ⟨rfl, rfl, ?_⟩
  decide

/-- C4 amended: in the mixabr controller, `penalizeLevel` increments the
failure count of the level and bans it until
`now + min(BASE × 2^(failures−1), MAX)` with `BASE = 60000` ms and
`MAX = 300000` ms, and the manual-switch path resets the level's failure
count and removes its ban; the simulcast controller's `onError` handler
never touches its penalty fields (its 30 s/120 s constants are unused). -/
theorem abr_penalty_amended :
    (∀ (s : PenaltyState) (idx now : Nat),
      (penalizeLevel s idx now).failureCounts idx = s.failureCounts idx + 1) ∧
    (∀ (s : PenaltyState) (idx now : Nat),
      (penalizeLevel s idx now).penaltyBox idx =
        some (now +
          min (mixBasePenaltyTime * 2 ^ (s.failureCounts idx))
            mixMaxPenaltyTime)) ∧
    (∀ (s : PenaltyState) (idx : Nat),
      (manualSwitchClear s idx).failureCounts idx = 0 ∧
        (manualSwitchClear s idx).penaltyBox idx = none) ∧
    (∀ (s : PlayerAErrorState) (i : Nat),
      (onErrorA s).failureCounts i = s.failureCounts i ∧
        (onErrorA s).penaltyBox i = s.penaltyBox i) := by
  refine ⟨?_, ?_, ?_, ?_⟩
  · intro s idx now
    simp [penalizeLevel]
  · intro s idx now
    simp only [penalizeLevel, mixBasePenaltyTime, mixMaxPenaltyTime,
      Nat.add_sub_cancel, if_pos rfl]
    split_ifs with hcap <;> rw [Option.some.injEq] <;> omega
  · intro s idx
    exact ⟨by simp [manualSwitchClear], by simp [manualSwitchClear]⟩
  · intro s i
    exact ⟨rfl, rfl⟩

/-! ### C2: SSRC of packets produced by the simulcast source -/

/-- C2 counterexample: an audio layer with allocated SSRC 9 forwards a
packet whose upstream SSRC is 7 unchanged — the produced packet does not
carry the per-layer allocated SSRC. -/
theorem simulcast_audio_ssrc_counterexample :
    randUint32 0 0 0 9 = 9 ∧
    (forwardAudioUnit true
        { rtpPackets :=
            [{ header := { ssrc := 7, sequenceNumber := 0, timestamp := 0 },
               payload := [1] }],
          ntp := 0, nilPayload := false }).map (fun p => p.header.ssrc) =
      [7] ∧
    (7 : Nat) ≠ 9 := by
  decide

/-- C2 amended: every packet produced from a video-typed layer carries that
layer's allocated SSRC (so any two packets of one video layer agree on it),
while packets produced from audio-typed layers are clones of the upstream
packets with header — including SSRC — unchanged; allocated SSRCs fit in 32
bits. -/
theorem simulcast_ssrc_amended :
    (∀ (layerSSRC : Nat) (flag : Bool) (u : SimUnit) (p : RTPPacket),
      p ∈ forwardVideoUnit layerSSRC flag u → p.header.ssrc = layerSSRC) ∧
    (∀ (flag : Bool) (u : SimUnit) (p : RTPPacket),
      p ∈ forwardAudioUnit flag u →
        ∃ q ∈ u.rtpPackets, p.header = q.header ∧ p.payload = q.payload) ∧
    (∀ b0 b1 b2 b3 : Nat, b0 < 256 → b1 < 256 → b2 < 256 → b3 < 256 →
      randUint32 b0 b1 b2 b3 < 2 ^ 32) := by
  refine ⟨?_, ?_, ?_⟩
  · intro layerSSRC flag u p hp
    rw [forwardVideoUnit] at hp
    split_ifs at hp with hnil hflag
    · simp at hp
    · simp only [List.mem_filterMap] at hp
      obtain ⟨q, hq, hfq⟩ := hp
      simp only [Option.some.injEq] at hfq
      subst hfq
      rfl
    · simp at hp
  · intro flag u p hp
    rw [forwardAudioUnit] at hp
    split_ifs at hp with hnil hflag
    · simp at hp
    · simp only [List.mem_filterMap] at hp
      obtain ⟨q, hq, hfq⟩ := hp
      simp only [Option.some.injEq] at hfq
      subst hfq
      exact ⟨q, hq, rfl, rfl⟩
    · simp at hp
  · intro b0 b1 b2 b3 h0 h1 h2 h3
    rw [randUint32]
    have hb0 : b0 <<< 24 < 2 ^ 32 := by
      rw [Nat.shiftLeft_eq]
      calc b0 * 2 ^ 24 ≤ 255 * 2 ^ 24 := mul_le_mul_right' (by omega) _
        _ < 2 ^ 32 := by norm_num
    have hb1 : b1 <<< 16 < 2 ^ 32 := by
      rw [Nat.shiftLeft_eq]
      calc b1 * 2 ^ 16 ≤ 255 * 2 ^ 16 := mul_le_mul_right' (by omega) _
        _ < 2 ^ 32 := by norm_num
    have hb2 : b2 <<< 8 < 2 ^ 32 := by
      rw [Nat.shiftLeft_eq]
      calc b2 * 2 ^ 8 ≤ 255 * 2 ^ 8 := mul_le_mul_right' (by omega) _
        _ < 2 ^ 32 := by norm_num
    have hb3 : b3 < 2 ^ 32 := lt_of_lt_of_le h3 (by norm_num)
    exact Nat.or_lt_two_pow
      (Nat.or_lt_two_pow (Nat.or_lt_two_pow hb0 hb1) hb2) hb3

/-- C2 witness: a concrete video packet carrying the allocated SSRC, a
concrete audio clone, and a maximal four-byte SSRC allocation. -/
theorem simulcast_ssrc_amended_witness :
    ({ header := { ssrc := 5, sequenceNumber := 0, timestamp := 0 },
       payload := [1] } : RTPPacket).header.ssrc = 5 ∧
    randUint32 255 255 255 255 < 2 ^ 32 :=
  ⟨simulcast_ssrc_amended.1 5 true
      { rtpPackets :=
          [{ header := { ssrc := 7, sequenceNumber := 0, timestamp := 0 },
             payload := [1] }],
        ntp := 0, nilPayload := false } _ (by decide),
   simulcast_ssrc_amended.2.2 255 255 255 255 (by decide) (by decide)
     (by decide) (by decide)⟩

/-! ### C8: tentative description and its replacement -/

/-- C8: the output stream's description at construction is the tentative one
(H.264 media with the canned SPS/PPS plus the Opus stereo media for a
video-typed output, the Opus media alone for an audio-typed output); the
output processor replaces it with the description parsed from the encoder's
bitstream exactly when the first MPEG-TS parse returns no fatal error and at
least one media, and keeps the tentative one when the child exits before any
successful parse. -/
theorem transcoder_description_spec :
    createStreamDescription "video" =
      [{ type := TMediaType.video,
         formats := [TFormat.h264 96 cannedSPS cannedPPS 1] },
       { type := TMediaType.audio, formats := [TFormat.opus 97 2] }] ∧
    createStreamDescription "audio" =
      [{ type := TMediaType.audio, formats := [TFormat.opus 97 2] }] ∧
    (∀ (initErr toStreamErr : Option TSErr) (medias tentative : List TMedia),
      outputProcessorDesc initErr toStreamErr medias tentative =
        if initErr = none ∧ toStreamErr ≠ some TSErr.other ∧ medias ≠ [] then
          medias
        else tentative) ∧
    (∀ tentative : List TMedia,
      outputProcessorDesc (some TSErr.eof) none [] tentative = tentative) := by
  refine ⟨rfl, rfl, ?_, ?_⟩
  · intro initErr toStreamErr medias tentative
    cases initErr with
    | some e => simp [outputProcessorDesc]
    | none =>
      cases toStreamErr with
      | none =>
        cases medias <;>
          simp [outputProcessorDesc, toStreamErrIsFatal]
      | some e =>
        cases e <;> cases medias <;>
          simp [outputProcessorDesc, toStreamErrIsFatal]
  · intro tentative
    rfl

/-! ### C10: transcoder manager start failure keeps earlier outputs -/

theorem transcoderStartOutputs_partial (good : List TranscoderOutputConf)
    (bad : TranscoderOutputConf) (rest : List TranscoderOutputConf)
    (registered : List String)
    (hgood : ∀ o ∈ good, o.newOutputOk = true ∧ o.startOk = true)
    (hbad : bad.newOutputOk = false ∨ bad.startOk = false) :
    (transcoderStartOutputs registered (good ++ bad :: rest)).1 =
        registered ++ good.map (fun o => o.path) ∧
      (transcoderStartOutputs registered (good ++ bad :: rest)).2.isSome =
        true := by
  induction good generalizing registered with
  | nil =>
    cases hn : bad.newOutputOk with
    | false => simp [transcoderStartOutputs, hn]
    | true =>
      have hs : bad.startOk = false := by
        rcases hbad with h | h
        · rw [hn] at h
          exact absurd h (by simp)
        · exact h
      simp [transcoderStartOutputs, hn, hs]
  | cons o os ih =>
    have ho := hgood o (by simp)
    have hrest : ∀ x ∈ os, x.newOutputOk = true ∧ x.startOk = true :=
      fun x hx => hgood x (by simp [hx])
    have hstep := ih (registered ++ [o.path]) hrest
    simp only [List.cons_append, transcoderStartOutputs, List.append_eq, ho.1,
      ho.2, Bool.not_true, Bool.false_eq_true, if_false]
    constructor
    · rw [hstep.1]
      simp
    · exact hstep.2

/-- C10: when `Manager.Start` fails while creating or starting the k-th
configured output, it returns the error without rolling back: the outputs
started before the failure stay registered, the failed output is not
registered, the `active` flag remains set, and a later `Start` returns the
already-active error. -/
theorem transcoderManagerStart_no_rollback :
    ∀ (m : TranscoderManagerState) (cfg : TranscoderConfig)
      (good : List TranscoderOutputConf) (bad : TranscoderOutputConf)
      (rest : List TranscoderOutputConf),
      m.active = false →
      cfg.enable = true →
      cfg.outputs = good ++ bad :: rest →
      (∀ o ∈ good, o.newOutputOk = true ∧ o.startOk = true) →
      (bad.newOutputOk = false ∨ bad.startOk = false) →
      (transcoderManagerStart m cfg).2.isSome = true ∧
        (transcoderManagerStart m cfg).1.active = true ∧
        (transcoderManagerStart m cfg).1.outputs =
          m.outputs ++ good.map (fun o => o.path) ∧
        transcoderManagerStart (transcoderManagerStart m cfg).1 cfg =
          ((transcoderManagerStart m cfg).1,
            some ("transcoder already active")) := by
  intro m cfg good bad rest hact hen hout hgood hbad
  have hsplit := transcoderStartOutputs_partial good bad rest m.outputs
    hgood hbad
  rw [← hout] at hsplit
  have hstart : transcoderManagerStart m cfg =
      ({ active := true,
         outputs := (transcoderStartOutputs m.outputs cfg.outputs).1 },
        (transcoderStartOutputs m.outputs cfg.outputs).2) := by
    rw [transcoderManagerStart, if_neg (by simp [hact]), if_neg (by simp [hen])]
  refine ⟨?_, ?_, ?_, ?_⟩
  · rw [hstart]
    exact hsplit.2
  · rw [hstart]
  · rw [hstart]
    exact hsplit.1
  · rw [hstart, transcoderManagerStart, if_pos rfl]

/-- C10 witness: a concrete two-output config whose second output fails to
be created. -/
theorem transcoderManagerStart_no_rollback_witness :
    (transcoderManagerStart { active := false, outputs := [] }
        { enable := true,
          outputs := [{ path := "a", newOutputOk := true, startOk := true },
                      { path := "b", newOutputOk := false,
                        startOk := true }] }).2.isSome = true ∧
      (transcoderManagerStart { active := false, outputs := [] }
        { enable := true,
          outputs := [{ path := "a", newOutputOk := true, startOk := true },
                      { path := "b", newOutputOk := false,
                        startOk := true }] }).1.active = true ∧
      (transcoderManagerStart { active := false, outputs := [] }
        { enable := true,
          outputs := [{ path := "a", newOutputOk := true, startOk := true },
                      { path := "b", newOutputOk := false,
                        startOk := true }] }).1.outputs =
        ({ active := false, outputs := [] } : TranscoderManagerState).outputs ++
          [{ path := "a", newOutputOk := true,
             startOk := true }].map
            (fun o : TranscoderOutputConf => o.path) ∧
      transcoderManagerStart
          (transcoderManagerStart { active := false, outputs := [] }
            { enable := true,
              outputs := [{ path := "a", newOutputOk := true, startOk := true },
                          { path := "b", newOutputOk := false,
                            startOk := true }] }).1
          { enable := true,
            outputs := [{ path := "a", newOutputOk := true, startOk := true },
                        { path := "b", newOutputOk := false,
                          startOk := true }] } =
        ((transcoderManagerStart { active := false, outputs := [] }
            { enable := true,
              outputs := [{ path := "a", newOutputOk := true, startOk := true },
                          { path := "b", newOutputOk := false,
                            startOk := true }] }).1,
          some ("transcoder already active")) :=
  transcoderManagerStart_no_rollback { active := false, outputs := [] }
    { enable := true,
      outputs := [{ path := "a", newOutputOk := true, startOk := true },
                  { path := "b", newOutputOk := false, startOk := true }] }
    [{ path := "a", newOutputOk := true, startOk := true }]
    { path := "b", newOutputOk := false, startOk := true } [] rfl rfl rfl
    (by decide) (by decide)

/-! ### C5: trickle-ICE candidate queueing, flushing and PATCH failure -/

/-- C5 counterexample: in the whep/reader.js variant, the 201 response
records the session URL but never flushes the queued candidates (no PATCH
is issued, the queue stays full), and a failed candidate PATCH invokes the
error handler, moving the session from `running` to `restarting`. -/
theorem whep_candidate_counterexample :
    (whepSendOffer201
        { state := ReaderLifecycle.running, sessionUrl := none,
          queuedCandidates := [5], patchBodies := [] } 1).patchBodies = [] ∧
    (whepSendOffer201
        { state := ReaderLifecycle.running, sessionUrl := none,
          queuedCandidates := [5], patchBodies := [] } 1).queuedCandidates =
      [5] ∧
    (whepPatchFailure
        { state := ReaderLifecycle.running, sessionUrl := some 1,
          queuedCandidates := [], patchBodies := [] }).state =
      ReaderLifecycle.restarting := by
  decide

/-- C5 amended: the claimed behaviour is that of the pk/reader.js variant —
candidates arriving while running without a session URL are queued; the 201
response flushes the whole queue with a single PATCH and clears it; a later
candidate is sent as its own PATCH; and a failed candidate PATCH changes
nothing (a console warning only). The whep/reader.js variant instead never
flushes the queue and restarts the session on a failed PATCH. -/
theorem whep_candidate_amended :
    (∀ (s : WHEPReaderState) (c : Nat), s.state = ReaderLifecycle.running →
      s.sessionUrl = none →
      pkOnLocalCandidate s c =
        { s with queuedCandidates := s.queuedCandidates ++ [c] }) ∧
    (∀ (s : WHEPReaderState) (url : Nat), s.state = ReaderLifecycle.running →
      s.queuedCandidates ≠ [] →
      pkSendOffer201 s url =
        { s with sessionUrl := some url, queuedCandidates := [],
                 patchBodies := s.patchBodies ++ [s.queuedCandidates] }) ∧
    (∀ (s : WHEPReaderState) (c url : Nat), s.state = ReaderLifecycle.running →
      s.sessionUrl = some url →
      pkOnLocalCandidate s c =
        { s with patchBodies := s.patchBodies ++ [[c]] }) ∧
    (∀ s : WHEPReaderState, pkPatchFailure s = s) := by
  refine ⟨?_, ?_, ?_, ?_⟩
  · intro s c hrun hurl
    rw [pkOnLocalCandidate, if_neg (by simp [hrun]), if_pos hurl]
  · intro s url hrun hq
    rw [pkSendOffer201, if_neg (by simp [hrun])]
    rw [if_pos (by simpa [List.length_pos] using hq)]
    rfl
  · intro s c url hrun hurl
    rw [pkOnLocalCandidate, if_neg (by simp [hrun]), if_neg (by simp [hurl])]
    rfl
  · intro s
    rfl

/-- C5 witness: concrete runs of the pk reader — a queued candidate, the
single flush PATCH on the 201 response, an individual PATCH afterwards, and
a PATCH failure leaving the state intact. -/
theorem whep_candidate_amended_witness :
    pkOnLocalCandidate
        { state := ReaderLifecycle.running, sessionUrl := none,
          queuedCandidates := [], patchBodies := [] } 5 =
      { state := ReaderLifecycle.running, sessionUrl := none,
        queuedCandidates := [] ++ [5], patchBodies := [] } ∧
    pkSendOffer201
        { state := ReaderLifecycle.running, sessionUrl := none,
          queuedCandidates := [5, 6], patchBodies := [] } 1 =
      { state := ReaderLifecycle.running, sessionUrl := some 1,
        queuedCandidates := [], patchBodies := [] ++ [[5, 6]] } ∧
    pkOnLocalCandidate
        { state := ReaderLifecycle.running, sessionUrl := some 1,
          queuedCandidates := [], patchBodies := [[5, 6]] } 7 =
      { state := ReaderLifecycle.running, sessionUrl := some 1,
        queuedCandidates := [], patchBodies := [[5, 6]] ++ [[7]] } ∧
    pkPatchFailure
        { state := ReaderLifecycle.running, sessionUrl := some 1,
          queuedCandidates := [], patchBodies := [[5, 6], [7]] } =
      { state := ReaderLifecycle.running, sessionUrl := some 1,
        queuedCandidates := [], patchBodies := [[5, 6], [7]] } :=
  ⟨whep_candidate_amended.1 _ 5 rfl rfl,
   whep_candidate_amended.2.1 _ 1 rfl (by decide),
   whep_candidate_amended.2.2.1 _ 7 1 rfl rfl,
   whep_candidate_amended.2.2.2 _⟩
